import Mathlib

/-!
Formal model of the secret-definition parser of bittrance/with-secret
(src/input.rs, error type from src/main.rs).

The Rust code is written against the nom 7 combinator library over string
slices. We embed it shallowly: input is a list of characters, and every
combinator is a function from the remaining input to either a nom-style
error or a pair of (remaining input, output), exactly mirroring nom's
IResult convention for "complete" parsers. The nom combinators used by the
source (tag, take_while, is_a, is_not, space0, space1, opt, alt, tuple,
delimited, escaped, many1) are reproduced below from nom 7's semantics,
including the error codes, the default error type's append/or behaviour
(which keeps the last branch's error in alt and passes the first inner
failure through many1 unchanged), and the bounded loops of escaped and
many1 (rendered with an explicit fuel argument that exceeds the input
length, standing in for loops whose every iteration consumes input).
-/

/-- Error codes of nom 7 relevant to this grammar (nom's ErrorKind,
restricted to the variants the combinators used here can produce). -/
inductive ErrorKind where
  | Tag
  | IsA
  | IsNot
  | Space
  | Escaped
  | Many1
deriving DecidableEq, Repr

/-- nom's default error type nom::error::Error, carrying the input position
at which the failure occurred and the error code. -/
structure NomError where
  input : List Char
  code : ErrorKind
deriving DecidableEq, Repr

/-- A nom "complete" parser over string slices: remaining input in, either
an error or (remaining input, output) out. -/
abbrev Rule (α : Type) := List Char → Except NomError (List Char × α)

/-- Sequencing of two rules, as done by nom's tuple/delimited combinators
and by the ? operator in the Rust code. -/
def pbind {α β : Type} (p : Rule α) (f : α → Rule β) : Rule β := fun i =>
  match p i with
  | .error e => .error e
  | .ok (i1, a) => f a i1

/-- A rule that consumes nothing and returns a fixed value. -/
def ppure {α : Type} (a : α) : Rule α := fun i => .ok (i, a)

/-- Rust's char::is_whitespace: the Unicode White_Space property
(the full, small list of White_Space code points). -/
def rustIsWhitespace (c : Char) : Bool :=
  decide ((0x09 ≤ c.toNat ∧ c.toNat ≤ 0x0D) ∨ c.toNat = 0x20 ∨ c.toNat = 0x85 ∨
    c.toNat = 0xA0 ∨ c.toNat = 0x1680 ∨ (0x2000 ≤ c.toNat ∧ c.toNat ≤ 0x200A) ∨
    c.toNat = 0x2028 ∨ c.toNat = 0x2029 ∨ c.toNat = 0x202F ∨ c.toNat = 0x205F ∨
    c.toNat = 0x3000)

/-- The code points, as inclusive ranges, on which Rust's
char::is_alphanumeric returns true: the Unicode Alphabetic derived
property united with the numeric general categories Nd, Nl and No
(Unicode 14.0.0), the data behind Rust's is_alphabetic and is_numeric. -/
def alnumRanges : List (Nat × Nat) := [
  (48, 57), (65, 90), (97, 122), (170, 170), (178, 179), (181, 181),
  (185, 186), (188, 190), (192, 214), (216, 246), (248, 705), (710, 721),
  (736, 740), (748, 748), (750, 750), (837, 837), (880, 884), (886, 887),
  (890, 893), (895, 895), (902, 902), (904, 906), (908, 908), (910, 929),
  (931, 1013), (1015, 1153), (1162, 1327), (1329, 1366), (1369, 1369), (1376, 1416),
  (1456, 1469), (1471, 1471), (1473, 1474), (1476, 1477), (1479, 1479), (1488, 1514),
  (1519, 1522), (1552, 1562), (1568, 1623), (1625, 1641), (1646, 1747), (1749, 1756),
  (1761, 1768), (1773, 1788), (1791, 1791), (1808, 1855), (1869, 1969), (1984, 2026),
  (2036, 2037), (2042, 2042), (2048, 2071), (2074, 2092), (2112, 2136), (2144, 2154),
  (2160, 2183), (2185, 2190), (2208, 2249), (2260, 2271), (2275, 2281), (2288, 2363),
  (2365, 2380), (2382, 2384), (2389, 2403), (2406, 2415), (2417, 2435), (2437, 2444),
  (2447, 2448), (2451, 2472), (2474, 2480), (2482, 2482), (2486, 2489), (2493, 2500),
  (2503, 2504), (2507, 2508), (2510, 2510), (2519, 2519), (2524, 2525), (2527, 2531),
  (2534, 2545), (2548, 2553), (2556, 2556), (2561, 2563), (2565, 2570), (2575, 2576),
  (2579, 2600), (2602, 2608), (2610, 2611), (2613, 2614), (2616, 2617), (2622, 2626),
  (2631, 2632), (2635, 2636), (2641, 2641), (2649, 2652), (2654, 2654), (2662, 2677),
  (2689, 2691), (2693, 2701), (2703, 2705), (2707, 2728), (2730, 2736), (2738, 2739),
  (2741, 2745), (2749, 2757), (2759, 2761), (2763, 2764), (2768, 2768), (2784, 2787),
  (2790, 2799), (2809, 2812), (2817, 2819), (2821, 2828), (2831, 2832), (2835, 2856),
  (2858, 2864), (2866, 2867), (2869, 2873), (2877, 2884), (2887, 2888), (2891, 2892),
  (2902, 2903), (2908, 2909), (2911, 2915), (2918, 2927), (2929, 2935), (2946, 2947),
  (2949, 2954), (2958, 2960), (2962, 2965), (2969, 2970), (2972, 2972), (2974, 2975),
  (2979, 2980), (2984, 2986), (2990, 3001), (3006, 3010), (3014, 3016), (3018, 3020),
  (3024, 3024), (3031, 3031), (3046, 3058), (3072, 3075), (3077, 3084), (3086, 3088),
  (3090, 3112), (3114, 3129), (3133, 3140), (3142, 3144), (3146, 3148), (3157, 3158),
  (3160, 3162), (3165, 3165), (3168, 3171), (3174, 3183), (3192, 3198), (3200, 3203),
  (3205, 3212), (3214, 3216), (3218, 3240), (3242, 3251), (3253, 3257), (3261, 3268),
  (3270, 3272), (3274, 3276), (3285, 3286), (3293, 3294), (3296, 3299), (3302, 3311),
  (3313, 3314), (3328, 3340), (3342, 3344), (3346, 3386), (3389, 3396), (3398, 3400),
  (3402, 3404), (3406, 3406), (3412, 3427), (3430, 3448), (3450, 3455), (3457, 3459),
  (3461, 3478), (3482, 3505), (3507, 3515), (3517, 3517), (3520, 3526), (3535, 3540),
  (3542, 3542), (3544, 3551), (3558, 3567), (3570, 3571), (3585, 3642), (3648, 3654),
  (3661, 3661), (3664, 3673), (3713, 3714), (3716, 3716), (3718, 3722), (3724, 3747),
  (3749, 3749), (3751, 3769), (3771, 3773), (3776, 3780), (3782, 3782), (3789, 3789),
  (3792, 3801), (3804, 3807), (3840, 3840), (3872, 3891), (3904, 3911), (3913, 3948),
  (3953, 3969), (3976, 3991), (3993, 4028), (4096, 4150), (4152, 4152), (4155, 4169),
  (4176, 4253), (4256, 4293), (4295, 4295), (4301, 4301), (4304, 4346), (4348, 4680),
  (4682, 4685), (4688, 4694), (4696, 4696), (4698, 4701), (4704, 4744), (4746, 4749),
  (4752, 4784), (4786, 4789), (4792, 4798), (4800, 4800), (4802, 4805), (4808, 4822),
  (4824, 4880), (4882, 4885), (4888, 4954), (4969, 4988), (4992, 5007), (5024, 5109),
  (5112, 5117), (5121, 5740), (5743, 5759), (5761, 5786), (5792, 5866), (5870, 5880),
  (5888, 5907), (5919, 5939), (5952, 5971), (5984, 5996), (5998, 6000), (6002, 6003),
  (6016, 6067), (6070, 6088), (6103, 6103), (6108, 6108), (6112, 6121), (6128, 6137),
  (6160, 6169), (6176, 6264), (6272, 6314), (6320, 6389), (6400, 6430), (6432, 6443),
  (6448, 6456), (6470, 6509), (6512, 6516), (6528, 6571), (6576, 6601), (6608, 6618),
  (6656, 6683), (6688, 6750), (6753, 6772), (6784, 6793), (6800, 6809), (6823, 6823),
  (6847, 6848), (6860, 6862), (6912, 6963), (6965, 6979), (6981, 6988), (6992, 7001),
  (7040, 7081), (7084, 7141), (7143, 7153), (7168, 7222), (7232, 7241), (7245, 7293),
  (7296, 7304), (7312, 7354), (7357, 7359), (7401, 7404), (7406, 7411), (7413, 7414),
  (7418, 7418), (7424, 7615), (7655, 7668), (7680, 7957), (7960, 7965), (7968, 8005),
  (8008, 8013), (8016, 8023), (8025, 8025), (8027, 8027), (8029, 8029), (8031, 8061),
  (8064, 8116), (8118, 8124), (8126, 8126), (8130, 8132), (8134, 8140), (8144, 8147),
  (8150, 8155), (8160, 8172), (8178, 8180), (8182, 8188), (8304, 8305), (8308, 8313),
  (8319, 8329), (8336, 8348), (8450, 8450), (8455, 8455), (8458, 8467), (8469, 8469),
  (8473, 8477), (8484, 8484), (8486, 8486), (8488, 8488), (8490, 8493), (8495, 8505),
  (8508, 8511), (8517, 8521), (8526, 8526), (8528, 8585), (9312, 9371), (9398, 9471),
  (10102, 10131), (11264, 11492), (11499, 11502), (11506, 11507), (11517, 11517), (11520, 11557),
  (11559, 11559), (11565, 11565), (11568, 11623), (11631, 11631), (11648, 11670), (11680, 11686),
  (11688, 11694), (11696, 11702), (11704, 11710), (11712, 11718), (11720, 11726), (11728, 11734),
  (11736, 11742), (11744, 11775), (11823, 11823), (12293, 12295), (12321, 12329), (12337, 12341),
  (12344, 12348), (12353, 12438), (12445, 12447), (12449, 12538), (12540, 12543), (12549, 12591),
  (12593, 12686), (12690, 12693), (12704, 12735), (12784, 12799), (12832, 12841), (12872, 12879),
  (12881, 12895), (12928, 12937), (12977, 12991), (13312, 19903), (19968, 42124), (42192, 42237),
  (42240, 42508), (42512, 42539), (42560, 42606), (42612, 42619), (42623, 42735), (42775, 42783),
  (42786, 42888), (42891, 42954), (42960, 42961), (42963, 42963), (42965, 42969), (42994, 43013),
  (43015, 43047), (43056, 43061), (43072, 43123), (43136, 43203), (43205, 43205), (43216, 43225),
  (43250, 43255), (43259, 43259), (43261, 43306), (43312, 43346), (43360, 43388), (43392, 43442),
  (43444, 43455), (43471, 43481), (43488, 43518), (43520, 43574), (43584, 43597), (43600, 43609),
  (43616, 43638), (43642, 43710), (43712, 43712), (43714, 43714), (43739, 43741), (43744, 43759),
  (43762, 43765), (43777, 43782), (43785, 43790), (43793, 43798), (43808, 43814), (43816, 43822),
  (43824, 43866), (43868, 43881), (43888, 44010), (44016, 44025), (44032, 55203), (55216, 55238),
  (55243, 55291), (63744, 64109), (64112, 64217), (64256, 64262), (64275, 64279), (64285, 64296),
  (64298, 64310), (64312, 64316), (64318, 64318), (64320, 64321), (64323, 64324), (64326, 64433),
  (64467, 64829), (64848, 64911), (64914, 64967), (65008, 65019), (65136, 65140), (65142, 65276),
  (65296, 65305), (65313, 65338), (65345, 65370), (65382, 65470), (65474, 65479), (65482, 65487),
  (65490, 65495), (65498, 65500), (65536, 65547), (65549, 65574), (65576, 65594), (65596, 65597),
  (65599, 65613), (65616, 65629), (65664, 65786), (65799, 65843), (65856, 65912), (65930, 65931),
  (66176, 66204), (66208, 66256), (66273, 66299), (66304, 66339), (66349, 66378), (66384, 66426),
  (66432, 66461), (66464, 66499), (66504, 66511), (66513, 66517), (66560, 66717), (66720, 66729),
  (66736, 66771), (66776, 66811), (66816, 66855), (66864, 66915), (66928, 66938), (66940, 66954),
  (66956, 66962), (66964, 66965), (66967, 66977), (66979, 66993), (66995, 67001), (67003, 67004),
  (67072, 67382), (67392, 67413), (67424, 67431), (67456, 67461), (67463, 67504), (67506, 67514),
  (67584, 67589), (67592, 67592), (67594, 67637), (67639, 67640), (67644, 67644), (67647, 67669),
  (67672, 67702), (67705, 67742), (67751, 67759), (67808, 67826), (67828, 67829), (67835, 67867),
  (67872, 67897), (67968, 68023), (68028, 68047), (68050, 68099), (68101, 68102), (68108, 68115),
  (68117, 68119), (68121, 68149), (68160, 68168), (68192, 68222), (68224, 68255), (68288, 68295),
  (68297, 68324), (68331, 68335), (68352, 68405), (68416, 68437), (68440, 68466), (68472, 68497),
  (68521, 68527), (68608, 68680), (68736, 68786), (68800, 68850), (68858, 68903), (68912, 68921),
  (69216, 69246), (69248, 69289), (69291, 69292), (69296, 69297), (69376, 69415), (69424, 69445),
  (69457, 69460), (69488, 69505), (69552, 69579), (69600, 69622), (69632, 69701), (69714, 69743),
  (69745, 69749), (69762, 69816), (69826, 69826), (69840, 69864), (69872, 69881), (69888, 69938),
  (69942, 69951), (69956, 69959), (69968, 70002), (70006, 70006), (70016, 70079), (70081, 70084),
  (70094, 70106), (70108, 70108), (70113, 70132), (70144, 70161), (70163, 70196), (70199, 70199),
  (70206, 70206), (70272, 70278), (70280, 70280), (70282, 70285), (70287, 70301), (70303, 70312),
  (70320, 70376), (70384, 70393), (70400, 70403), (70405, 70412), (70415, 70416), (70419, 70440),
  (70442, 70448), (70450, 70451), (70453, 70457), (70461, 70468), (70471, 70472), (70475, 70476),
  (70480, 70480), (70487, 70487), (70493, 70499), (70656, 70721), (70723, 70725), (70727, 70730),
  (70736, 70745), (70751, 70753), (70784, 70849), (70852, 70853), (70855, 70855), (70864, 70873),
  (71040, 71093), (71096, 71102), (71128, 71133), (71168, 71230), (71232, 71232), (71236, 71236),
  (71248, 71257), (71296, 71349), (71352, 71352), (71360, 71369), (71424, 71450), (71453, 71466),
  (71472, 71483), (71488, 71494), (71680, 71736), (71840, 71922), (71935, 71942), (71945, 71945),
  (71948, 71955), (71957, 71958), (71960, 71989), (71991, 71992), (71995, 71996), (71999, 72002),
  (72016, 72025), (72096, 72103), (72106, 72151), (72154, 72159), (72161, 72161), (72163, 72164),
  (72192, 72242), (72245, 72254), (72272, 72343), (72349, 72349), (72368, 72440), (72704, 72712),
  (72714, 72758), (72760, 72766), (72768, 72768), (72784, 72812), (72818, 72847), (72850, 72871),
  (72873, 72886), (72960, 72966), (72968, 72969), (72971, 73014), (73018, 73018), (73020, 73021),
  (73023, 73025), (73027, 73027), (73030, 73031), (73040, 73049), (73056, 73061), (73063, 73064),
  (73066, 73102), (73104, 73105), (73107, 73110), (73112, 73112), (73120, 73129), (73440, 73462),
  (73648, 73648), (73664, 73684), (73728, 74649), (74752, 74862), (74880, 75075), (77712, 77808),
  (77824, 78894), (82944, 83526), (92160, 92728), (92736, 92766), (92768, 92777), (92784, 92862),
  (92864, 92873), (92880, 92909), (92928, 92975), (92992, 92995), (93008, 93017), (93019, 93025),
  (93027, 93047), (93053, 93071), (93760, 93846), (93952, 94026), (94031, 94087), (94095, 94111),
  (94176, 94177), (94179, 94179), (94192, 94193), (94208, 100343), (100352, 101589), (101632, 101640),
  (110576, 110579), (110581, 110587), (110589, 110590), (110592, 110882), (110928, 110930), (110948, 110951),
  (110960, 111355), (113664, 113770), (113776, 113788), (113792, 113800), (113808, 113817), (113822, 113822),
  (119520, 119539), (119648, 119672), (119808, 119892), (119894, 119964), (119966, 119967), (119970, 119970),
  (119973, 119974), (119977, 119980), (119982, 119993), (119995, 119995), (119997, 120003), (120005, 120069),
  (120071, 120074), (120077, 120084), (120086, 120092), (120094, 120121), (120123, 120126), (120128, 120132),
  (120134, 120134), (120138, 120144), (120146, 120485), (120488, 120512), (120514, 120538), (120540, 120570),
  (120572, 120596), (120598, 120628), (120630, 120654), (120656, 120686), (120688, 120712), (120714, 120744),
  (120746, 120770), (120772, 120779), (120782, 120831), (122624, 122654), (122880, 122886), (122888, 122904),
  (122907, 122913), (122915, 122916), (122918, 122922), (123136, 123180), (123191, 123197), (123200, 123209),
  (123214, 123214), (123536, 123565), (123584, 123627), (123632, 123641), (124896, 124902), (124904, 124907),
  (124909, 124910), (124912, 124926), (124928, 125124), (125127, 125135), (125184, 125251), (125255, 125255),
  (125259, 125259), (125264, 125273), (126065, 126123), (126125, 126127), (126129, 126132), (126209, 126253),
  (126255, 126269), (126464, 126467), (126469, 126495), (126497, 126498), (126500, 126500), (126503, 126503),
  (126505, 126514), (126516, 126519), (126521, 126521), (126523, 126523), (126530, 126530), (126535, 126535),
  (126537, 126537), (126539, 126539), (126541, 126543), (126545, 126546), (126548, 126548), (126551, 126551),
  (126553, 126553), (126555, 126555), (126557, 126557), (126559, 126559), (126561, 126562), (126564, 126564),
  (126567, 126570), (126572, 126578), (126580, 126583), (126585, 126588), (126590, 126590), (126592, 126601),
  (126603, 126619), (126625, 126627), (126629, 126633), (126635, 126651), (127232, 127244), (127280, 127305),
  (127312, 127337), (127344, 127369), (130032, 130041), (131072, 173791), (173824, 177976), (177984, 178205),
  (178208, 183969), (183984, 191456), (194560, 195101), (196608, 201546)]

/-- Rust's char::is_alphanumeric: is_alphabetic() || is_numeric(), i.e.
ASCII letters and digits fast-pathed, and above ASCII a lookup of the
Unicode Alphabetic-or-numeric table. -/
def rustIsAlphanumeric (c : Char) : Bool :=
  c.isAlpha || c.isDigit ||
    (decide (0x7F < c.toNat) &&
      alnumRanges.any (fun r => decide (r.1 ≤ c.toNat ∧ c.toNat ≤ r.2)))

/-- The key character class of one_secret:
|c: char| c.is_alphanumeric() || c == '_'. -/
def keyPred (c : Char) : Bool := rustIsAlphanumeric c || c == '_'

/-- The character class of nom's space0/space1: space or horizontal tab. -/
def isSpaceTab (c : Char) : Bool := c == ' ' || c == '\t'

/-- nom's bytes::complete::tag: match a literal prefix, else error Tag. -/
def tagP (t : List Char) : Rule (List Char) := fun i =>
  if t.isPrefixOf i then .ok (i.drop t.length, t) else .error ⟨i, .Tag⟩

/-- nom's bytes::complete::take_while: the longest (possibly empty) prefix
whose characters satisfy the predicate; never fails. -/
def take_whileP (p : Char → Bool) : Rule (List Char) := fun i =>
  .ok (i.dropWhile p, i.takeWhile p)

/-- nom's character::complete::space0: longest run of spaces and tabs. -/
def space0 : Rule (List Char) := take_whileP isSpaceTab

/-- nom's character::complete::space1: like space0 but the run must be
non-empty, else error Space. -/
def space1 : Rule (List Char) := fun i =>
  if (i.takeWhile isSpaceTab).isEmpty then .error ⟨i, .Space⟩
  else .ok (i.dropWhile isSpaceTab, i.takeWhile isSpaceTab)

/-- nom's bytes::complete::is_a: longest non-empty prefix of characters
drawn from the given set, else error IsA. -/
def is_aP (set : List Char) : Rule (List Char) := fun i =>
  if (i.takeWhile (fun c => set.contains c)).isEmpty then .error ⟨i, .IsA⟩
  else .ok (i.dropWhile (fun c => set.contains c), i.takeWhile (fun c => set.contains c))

/-- nom's bytes::complete::is_not: longest non-empty prefix of characters
outside the given set, else error IsNot. -/
def is_notP (set : List Char) : Rule (List Char) := fun i =>
  if (i.takeWhile (fun c => !set.contains c)).isEmpty then .error ⟨i, .IsNot⟩
  else .ok (i.dropWhile (fun c => !set.contains c), i.takeWhile (fun c => !set.contains c))

/-- nom's combinator::opt: turn failure into a None result that consumes
nothing. -/
def optP {α : Type} (p : Rule α) : Rule (Option α) := fun i =>
  match p i with
  | .ok (i1, a) => .ok (i1, some a)
  | .error _ => .ok (i, none)

/-- nom's branch::alt for two branches. With nom's default error type the
or/append hooks discard earlier errors, so an all-branches failure surfaces
the last branch's error, which this definition reproduces. -/
def paltP {α : Type} (p q : Rule α) : Rule α := fun i =>
  match p i with
  | .ok r => .ok r
  | .error _ => q i

/-- nom's sequence::delimited: run three rules in order, keep the middle
output. -/
def delimitedP {α β γ : Type} (a : Rule α) (b : Rule β) (c : Rule γ) : Rule β :=
  pbind a fun _ => pbind b fun x => pbind c fun _ => ppure x

/-- The loop body of nom's bytes::complete::escaped. The first argument
fixes the whole input escaped was called on (nom reports errors and slices
relative to it); the Nat is fuel standing in for nom's while loop, always
called with more fuel than the input is long (every iteration of the real
loop consumes at least one character). -/
def escapedGo (normal : Rule (List Char)) (control : Char) (escapable : Rule (List Char))
    (input : List Char) : Nat → List Char → Except NomError (List Char × List Char)
  | _, [] => .ok ([], input)
  | 0, _ :: _ => .error ⟨input, .Escaped⟩
  | fuel+1, c :: rest =>
    match normal (c :: rest) with
    | .ok (i2, _) =>
      if i2.isEmpty then .ok ([], input)
      else if i2.length == (c :: rest).length then
        .ok (i2, input.take (input.length - i2.length))
      else escapedGo normal control escapable input fuel i2
    | .error _ =>
      if c == control then
        match rest with
        | [] => .error ⟨input, .Escaped⟩
        | _ :: _ =>
          match escapable rest with
          | .ok (i2, _) =>
            if i2.isEmpty then .ok ([], input)
            else escapedGo normal control escapable input fuel i2
          | .error e => .error e
      else .ok (c :: rest, input.take (input.length - (c :: rest).length))

/-- nom's bytes::complete::escaped(normal, control_char, escapable). -/
def escapedP (normal : Rule (List Char)) (control : Char) (escapable : Rule (List Char)) :
    Rule (List Char) := fun input =>
  escapedGo normal control escapable input (input.length + 1) input

/-- The loop of nom's multi::many1 after the first element: stop (keeping
the results so far) at the first inner failure, and fail with Many1 if an
iteration consumes nothing. Fuel as in escapedGo. -/
def many1Loop {α : Type} (p : Rule α) : Nat → List Char → Except NomError (List Char × List α)
  | 0, i => .error ⟨i, .Many1⟩
  | fuel+1, i =>
    match p i with
    | .error _ => .ok (i, [])
    | .ok (i1, o) =>
      if i1.length == i.length then .error ⟨i, .Many1⟩
      else
        match many1Loop p fuel i1 with
        | .error e => .error e
        | .ok (i2, os) => .ok (i2, o :: os)

/-- nom's multi::many1: the element rule must succeed at least once (its
error passes through unchanged, as nom's default error append keeps it),
then repeat until it fails. -/
def many1P {α : Type} (p : Rule α) (fuel : Nat) : Rule (List α) := fun i =>
  match p i with
  | .error e => .error e
  | .ok (i1, o) =>
    match many1Loop p fuel i1 with
    | .error e => .error e
    | .ok (i2, os) => .ok (i2, o :: os)

/-- fn equal_sign(input: &str) -> IResult<&str, ()> from src/input.rs:
optional horizontal whitespace, a literal equals sign, optional horizontal
whitespace. -/
def equal_sign : Rule Unit :=
  pbind space0 fun _ => pbind (tagP ['=']) fun _ => pbind space0 fun _ => ppure ()

/-- fn maybe_quoted_value(input: &str) -> IResult<&str, &str> from
src/input.rs: a double-quoted value (backslash-escaped double quotes
allowed inside), else a single-quoted value (backslash-escaped single
quotes allowed inside), else a bare value running up to the first quote,
space, CR or LF. -/
def maybe_quoted_value : Rule (List Char) :=
  paltP
    (delimitedP (tagP ['"'])
      (escapedP (is_notP ['"', '\\']) '\\' (is_aP ['"'])) (tagP ['"']))
    (paltP
      (delimitedP (tagP ['\''])
        (escapedP (is_notP ['\'', '\\']) '\\' (is_aP ['\''])) (tagP ['\'']))
      (is_notP ['\'', '"', ' ', '\r', '\n']))

/-- Rust's str::replace specialised to the shape used in one_secret: a
two-character needle replaced by a one-character replacement, scanning
left to right over non-overlapping occurrences. -/
def replace2 (a b rep : Char) : List Char → List Char
  | [] => []
  | [c] => [c]
  | c :: d :: rest =>
    if c == a && d == b then rep :: replace2 a b rep rest
    else c :: replace2 a b rep (d :: rest)

/-- The unescaping chain applied to the raw value in one_secret:
.replace("\\\"", "\"").replace("\\'", "'").replace("\\\\", "\\"),
in exactly that order. -/
def unescapeValue (v : List Char) : List Char :=
  replace2 '\\' '\\' '\\' (replace2 '\\' '\'' '\'' (replace2 '\\' '"' '"' v))

/-- One parsed entry: a key/value pair of owned strings. -/
abbrev Entry := List Char × List Char

/-- The export marker inside one_secret: tuple((tag("export"), space1)),
the literal export token followed by at least one space or tab; its
outputs are discarded by one_secret, which wraps it in opt. -/
def export_clause : Rule Unit :=
  pbind (tagP ("export".data)) fun _ => pbind space1 fun _ => ppure ()

/-- fn one_secret(input: &str) -> IResult<&str, (String, String)> from
src/input.rs: skip whitespace, optionally a literal export token followed
by at least one space or tab, then the key (longest run of alphanumerics
and underscores), an equals sign, a value, optionally trailing CR/LF, and
the value unescaped by the fixed replace chain. -/
def one_secret : Rule Entry :=
  pbind (take_whileP rustIsWhitespace) fun _ =>
  pbind (optP export_clause) fun _ =>
  pbind (take_whileP keyPred) fun key =>
  pbind equal_sign fun _ =>
  pbind maybe_quoted_value fun value =>
  pbind (optP (is_aP ['\r', '\n'])) fun _ =>
  ppure (key, unescapeValue value)

/-- enum WithError from src/main.rs. The second field of InvalidProfile
models the rendered serde_json error message (opaque to this development).
ParseError is the single parse-failure variant, carrying a string. -/
inductive WithError where
  | ProfileNotFound : List Char → WithError
  | InvalidProfile : List Char → List Char → WithError
  | SecretNotFound : List Char → List Char → WithError
  | RequireSingleArgument : WithError
  | ParseError : List Char → WithError
deriving DecidableEq, Repr

/-- Rust's Debug escaping of a character inside a string, for the
characters that can occur here: quote, backslash and the common control
characters get a backslash escape, everything else prints as itself. -/
def rustDebugEscape (c : Char) : List Char :=
  if c == '"' then ['\\', '"']
  else if c == '\\' then ['\\', '\\']
  else if c == '\n' then ['\\', 'n']
  else if c == '\r' then ['\\', 'r']
  else if c == '\t' then ['\\', 't']
  else [c]

/-- The Debug name of an ErrorKind, as used by nom's error rendering. -/
def errorKindName : ErrorKind → List Char
  | .Tag => "Tag".data
  | .IsA => "IsA".data
  | .IsNot => "IsNot".data
  | .Space => "Space".data
  | .Escaped => "Escaped".data
  | .Many1 => "Many1".data

/-- err.to_string() on a nom error, per the Display impl of nom::Err
wrapping the Debug rendering of nom::error::Error. -/
def nomErrToString (e : NomError) : List Char :=
  ("Parsing Error: Error \x7b input: \"".data) ++
    (e.input.map rustDebugEscape).flatten ++
    ("\", code: ".data) ++ errorKindName e.code ++ (" \x7d".data)

/-- pub fn parse_secrets(input: &str) -> Result<Vec<(String, String)>> from
src/input.rs: run many1(one_secret); a fully consumed input yields the
entries, a leftover tail yields ParseError(tail), a grammar failure yields
ParseError of the rendered nom error. The fuel handed to many1P exceeds
the input length, so the loop sentinel is never reached (every accepted
entry consumes at least the equals sign). -/
def parse_secrets (input : List Char) : Except WithError (List Entry) :=
  match many1P one_secret (input.length + 1) input with
  | .ok ([], secrets) => .ok secrets
  | .ok (tail, _) => .error (WithError.ParseError tail)
  | .error err => .error (WithError.ParseError (nomErrToString err))

/-- Discriminator on parse results: true exactly on failures. -/
def exceptIsError {ε α : Type} : Except ε α → Bool
  | .error _ => true
  | .ok _ => false

-- Sanity checks mirroring the unit tests of src/input.rs.
example : one_secret ("FOO=bar".data) = .ok ([], ("FOO".data, "bar".data)) := by rfl
example : one_secret (" FOO=bar".data) = .ok ([], ("FOO".data, "bar".data)) := by rfl
example : parse_secrets ("FOO = bar\nBAZ = quux".data) =
    .ok [("FOO".data, "bar".data), ("BAZ".data, "quux".data)] := by rfl
example : one_secret ("FOO=\"b\\\"ar\"".data) = .ok ([], ("FOO".data, "b\"ar".data)) := by rfl
example : one_secret ("FOO='b\\'ar'".data) = .ok ([], ("FOO".data, "b'ar".data)) := by rfl
example : exceptIsError (parse_secrets ("export FOO = \"bar\"\nexport ".data)) = true := by rfl
-- The key class is Unicode-wide, as in Rust: non-Latin-1 letters are keys.
example : parse_secrets ("Ā=1".data) = .ok [(['Ā'], ['1'])] := by rfl
set_option maxRecDepth 8192 in
example : rustIsAlphanumeric '中' = true := by rfl
set_option maxRecDepth 8192 in
example : rustIsAlphanumeric '→' = false := by rfl


/-! Inversion lemmas about the combinators and the grammar. -/

/-- Inversion for sequencing: a successful pbind factors through a
successful first rule and a successful continuation. -/
theorem pbind_ok {α β : Type} {p : Rule α} {f : α → Rule β} {i : List Char}
    {r : List Char × β} (h : pbind p f i = .ok r) :
    ∃ i1 a, p i = .ok (i1, a) ∧ f a i1 = .ok r := by
  unfold pbind at h
  cases hp : p i with
  | error e => rw [hp] at h; cases h
  | ok q =>
    obtain ⟨i1, a⟩ := q
    rw [hp] at h
    exact ⟨i1, a, rfl, h⟩

/-- Inversion for one_secret: on success, the key is the longest
keyPred-run at its position in the remaining input, and the value is the
raw maybe_quoted_value output passed through the unescaping chain. -/
theorem one_secret_shape {input i1 : List Char} {kv : Entry}
    (h : one_secret input = .ok (i1, kv)) :
    ∃ (jk jv rest raw : List Char),
      kv.1 = jk.takeWhile keyPred ∧
      maybe_quoted_value jv = .ok (rest, raw) ∧
      kv.2 = unescapeValue raw := by
  unfold one_secret at h
  obtain ⟨a1, w1, h1, h⟩ := pbind_ok h
  obtain ⟨a2, w2, h2, h⟩ := pbind_ok h
  obtain ⟨a3, key, h3, h⟩ := pbind_ok h
  obtain ⟨a4, u4, h4, h⟩ := pbind_ok h
  obtain ⟨a5, value, h5, h⟩ := pbind_ok h
  obtain ⟨a6, w6, h6, h⟩ := pbind_ok h
  simp only [ppure, Except.ok.injEq, Prod.mk.injEq] at h
  obtain ⟨-, hkv⟩ := h
  subst hkv
  simp only [take_whileP, Except.ok.injEq, Prod.mk.injEq] at h3
  exact ⟨a2, a4, a5, value, h3.2.symm, h5, rfl⟩

/-- Every element returned by the many1 loop is an output of a successful
run of the element rule. -/
theorem many1Loop_entries {α : Type} (p : Rule α) :
    ∀ (fuel : Nat) (i i2 : List Char) (os : List α),
      many1Loop p fuel i = .ok (i2, os) → ∀ o ∈ os, ∃ a b, p a = .ok (b, o) := by
  intro fuel
  induction fuel with
  | zero => intro i i2 os h; simp [many1Loop] at h
  | succ n ih =>
    intro i i2 os h o ho
    simp only [many1Loop] at h
    cases hp : p i with
    | error e =>
      simp only [hp, Except.ok.injEq, Prod.mk.injEq] at h
      rw [← h.2] at ho
      cases ho
    | ok q =>
      obtain ⟨j, o1⟩ := q
      simp only [hp] at h
      cases hl : (j.length == i.length) with
      | true => simp [hl] at h
      | false =>
        simp only [hl, Bool.false_eq_true, if_false] at h
        cases hr : many1Loop p n j with
        | error e => simp only [hr] at h; cases h
        | ok q2 =>
          obtain ⟨i3, os'⟩ := q2
          simp only [hr, Except.ok.injEq, Prod.mk.injEq] at h
          rw [← h.2] at ho
          rcases List.mem_cons.mp ho with rfl | ho'
          · exact ⟨i, j, hp⟩
          · exact ih j i3 os' hr o ho'

/-- Inversion for many1P: a success is a first element followed by a
successful loop. -/
theorem many1P_ok {α : Type} {p : Rule α} {fuel : Nat} {i i2 : List Char}
    {os : List α} (h : many1P p fuel i = .ok (i2, os)) :
    ∃ j o os', os = o :: os' ∧ p i = .ok (j, o) ∧ many1Loop p fuel j = .ok (i2, os') := by
  unfold many1P at h
  cases hp : p i with
  | error e => rw [hp] at h; cases h
  | ok q =>
    obtain ⟨j, o⟩ := q
    simp only [hp] at h
    cases hr : many1Loop p fuel j with
    | error e => simp only [hr] at h; cases h
    | ok q2 =>
      obtain ⟨i3, os'⟩ := q2
      simp only [hr, Except.ok.injEq, Prod.mk.injEq] at h
      exact ⟨j, o, os', h.2.symm, rfl, by rw [hr, h.1]⟩

/-- Every entry returned by many1P is an output of a successful run of the
element rule. -/
theorem many1P_entries {α : Type} {p : Rule α} {fuel : Nat} {i i2 : List Char}
    {os : List α} (h : many1P p fuel i = .ok (i2, os)) :
    ∀ o ∈ os, ∃ a b, p a = .ok (b, o) := by
  obtain ⟨j, o1, os', hos, hp, hr⟩ := many1P_ok h
  subst hos
  intro o ho
  rcases List.mem_cons.mp ho with rfl | ho'
  · exact ⟨i, j, hp⟩
  · exact many1Loop_entries p fuel j i2 os' hr o ho'

/-- A left-to-right chain of successful element parses: the first element
is parsed at the start position, and each further element at the position
where the previous one stopped. This captures that many1 emits its results
in the order the corresponding text occurs in the input. -/
inductive ManyChain {α : Type} (p : Rule α) : List Char → List Char → List α → Prop where
  | nil (i : List Char) : ManyChain p i i []
  | cons {i j k : List Char} {o : α} {os : List α} :
      p i = .ok (j, o) → ManyChain p j k os → ManyChain p i k (o :: os)

/-- The many1 loop emits a left-to-right chain. -/
theorem many1Loop_chain {α : Type} (p : Rule α) :
    ∀ (fuel : Nat) (i i2 : List Char) (os : List α),
      many1Loop p fuel i = .ok (i2, os) → ManyChain p i i2 os := by
  intro fuel
  induction fuel with
  | zero => intro i i2 os h; simp [many1Loop] at h
  | succ n ih =>
    intro i i2 os h
    simp only [many1Loop] at h
    cases hp : p i with
    | error e =>
      simp only [hp, Except.ok.injEq, Prod.mk.injEq] at h
      obtain ⟨hi, hos⟩ := h
      subst hi; rw [← hos]
      exact ManyChain.nil i
    | ok q =>
      obtain ⟨j, o1⟩ := q
      simp only [hp] at h
      cases hl : (j.length == i.length) with
      | true => simp [hl] at h
      | false =>
        simp only [hl, Bool.false_eq_true, if_false] at h
        cases hr : many1Loop p n j with
        | error e => simp only [hr] at h; cases h
        | ok q2 =>
          obtain ⟨i3, os'⟩ := q2
          simp only [hr, Except.ok.injEq, Prod.mk.injEq] at h
          obtain ⟨hi, hos⟩ := h
          subst hi; rw [← hos]
          exact ManyChain.cons hp (ih j _ os' hr)

/-- many1P emits a left-to-right chain. -/
theorem many1P_chain {α : Type} {p : Rule α} {fuel : Nat} {i i2 : List Char}
    {os : List α} (h : many1P p fuel i = .ok (i2, os)) : ManyChain p i i2 os := by
  obtain ⟨j, o1, os', hos, hp, hr⟩ := many1P_ok h
  subst hos
  exact ManyChain.cons hp (many1Loop_chain p fuel j i2 os' hr)

/-- parse_secrets succeeds exactly when many1(one_secret) consumes the
whole input, and then returns exactly the entries of that run. -/
theorem parse_ok_iff {input : List Char} {out : List Entry} :
    parse_secrets input = .ok out ↔
      many1P one_secret (input.length + 1) input = .ok ([], out) := by
  unfold parse_secrets
  cases hm : many1P one_secret (input.length + 1) input with
  | error e => simp
  | ok q =>
    obtain ⟨tail, os⟩ := q
    cases tail with
    | nil => simp
    | cons c t => simp

/-- Every failure of parse_secrets is the ParseError variant. -/
theorem parse_err_shape {input : List Char} {e : WithError}
    (h : parse_secrets input = .error e) : ∃ s, e = WithError.ParseError s := by
  unfold parse_secrets at h
  cases hm : many1P one_secret (input.length + 1) input with
  | error err =>
    simp only [hm, Except.error.injEq] at h
    exact ⟨_, h.symm⟩
  | ok q =>
    obtain ⟨tail, os⟩ := q
    cases tail with
    | nil => simp only [hm] at h; cases h
    | cons c t =>
      simp only [hm, Except.error.injEq] at h
      exact ⟨_, h.symm⟩

/-- A replacement pass whose needle starts with a character that does not
occur in the subject leaves the subject unchanged. -/
theorem replace2_of_not_mem {a b rep : Char} :
    ∀ {s : List Char}, a ∉ s → replace2 a b rep s = s := by
  intro s
  induction s with
  | nil => intro _; rfl
  | cons c rest ih =>
    intro hna
    cases rest with
    | nil => rfl
    | cons d rest' =>
      have hca : (c == a) = false := by
        simp only [beq_eq_false_iff_ne, ne_eq]
        intro hc; exact hna (hc ▸ List.mem_cons_self c _)
      simp only [replace2, hca, Bool.false_and, Bool.false_eq_true, if_false,
        List.cons.injEq, true_and]
      exact ih fun hm => hna (List.mem_cons_of_mem c hm)

/-- Unescaping is the identity on values that contain no backslash. -/
theorem unescapeValue_of_no_backslash {s : List Char} (h : '\\' ∉ s) :
    unescapeValue s = s := by
  unfold unescapeValue
  rw [replace2_of_not_mem h, replace2_of_not_mem h, replace2_of_not_mem h]

/-- Every character of a key accepted by one_secret satisfies keyPred. -/
theorem one_secret_key_chars {input i1 : List Char} {kv : Entry}
    (h : one_secret input = .ok (i1, kv)) : ∀ c ∈ kv.1, keyPred c = true := by
  obtain ⟨jk, -, -, -, hk, -, -⟩ := one_secret_shape h
  intro c hc
  rw [hk] at hc
  exact List.mem_takeWhile_imp hc

/-- The head of a dropWhile residue fails the predicate: what ends a
takeWhile run is a character outside the class, which is what makes the
run longest at its position. -/
theorem head_dropWhile_not {α : Type} (p : α → Bool) :
    ∀ (l : List α) {c : α}, (l.dropWhile p).head? = some c → p c = false := by
  intro l
  induction l with
  | nil => intro c h; simp [List.dropWhile] at h
  | cons d t ih =>
    intro c h
    by_cases hp : p d = true
    · rw [List.dropWhile_cons_of_pos hp] at h
      exact ih h
    · rw [List.dropWhile_cons_of_neg hp] at h
      simp only [List.head?_cons, Option.some.injEq] at h
      rw [← h]
      simpa using hp

/-- Full positional inversion for one_secret: a success factors through
the whitespace skip and the optional export marker, reaching the key
position j; there the key is read as takeWhile keyPred, the equals-sign
rule continues exactly at dropWhile keyPred, then the value is extracted
and unescaped. Since take_whileP and optP are total functions, a1 and j
are determined by the entry start. -/
theorem one_secret_inv {input i1 : List Char} {kv : Entry}
    (h : one_secret input = .ok (i1, kv)) :
    ∃ (a1 j j3 j4 raw w : List Char) (e : Option Unit),
      take_whileP rustIsWhitespace input = .ok (a1, w) ∧
      optP export_clause a1 = .ok (j, e) ∧
      kv.1 = j.takeWhile keyPred ∧
      equal_sign (j.dropWhile keyPred) = .ok (j3, ()) ∧
      maybe_quoted_value j3 = .ok (j4, raw) ∧
      kv.2 = unescapeValue raw := by
  unfold one_secret at h
  obtain ⟨a1, w1, h1, h⟩ := pbind_ok h
  obtain ⟨a2, w2, h2, h⟩ := pbind_ok h
  obtain ⟨a3, key, h3, h⟩ := pbind_ok h
  obtain ⟨a4, u4, h4, h⟩ := pbind_ok h
  obtain ⟨a5, value, h5, h⟩ := pbind_ok h
  obtain ⟨a6, w6, h6, h⟩ := pbind_ok h
  simp only [ppure, Except.ok.injEq, Prod.mk.injEq] at h
  obtain ⟨-, hkv⟩ := h
  subst hkv
  simp only [take_whileP, Except.ok.injEq, Prod.mk.injEq] at h3
  obtain ⟨ha3, hkey⟩ := h3
  subst ha3
  exact ⟨a1, a2, a4, a5, value, w1, w2, h1, h2, hkey.symm, h4, h5, rfl⟩

/-! Claim theorems. -/

/-- C1 counterexample: the trailing-input failure (on "FOO = bar baz") and
the grammar failure (on "FOO", where no equals sign can be matched) are
both returned through the one string-carrying constructor
WithError.ParseError, so parse does not distinguish the two cases as two
distinct tagged variants. -/
theorem both_failures_same_variant :
    parse_secrets ("FOO = bar baz".data) = .error (WithError.ParseError (" baz".data)) ∧
    parse_secrets ("FOO".data) =
      .error (WithError.ParseError (nomErrToString ⟨[], ErrorKind.Tag⟩)) :=
  ⟨by rfl, by rfl⟩

/-- C1 (amended): on failure, parse returns the single string-carrying
variant WithError.ParseError for both failure kinds; the trailing-input
case carries the unconsumed remainder and the grammar-failure case carries
the rendered nom diagnostic, distinguishable only by their string content,
not by distinct tags. -/
theorem failures_single_parse_error_variant :
    ∀ (input : List Char) (e : WithError), parse_secrets input = .error e →
      ∃ s, e = WithError.ParseError s :=
  fun _ _ h => parse_err_shape h

/-- Witness for C1: the trailing-input failure on "FOO = bar baz" is a
ParseError. -/
theorem failures_single_parse_error_variant_witness :
    ∃ s, WithError.ParseError (" baz".data) = WithError.ParseError s :=
  failures_single_parse_error_variant ("FOO = bar baz".data)
    (WithError.ParseError (" baz".data)) (by rfl)

/-- C2: parse succeeds exactly when many1(one_secret) consumes the entire
input; and when a non-empty prefix of entries parses but a non-empty
suffix remains, parse returns an error carrying exactly that unconsumed
remainder — never a partial result. -/
theorem parse_all_or_nothing (input : List Char) :
    (∀ out, parse_secrets input = .ok out ↔
      many1P one_secret (input.length + 1) input = .ok ([], out)) ∧
    (∀ tail os, many1P one_secret (input.length + 1) input = .ok (tail, os) →
      tail ≠ [] → parse_secrets input = .error (WithError.ParseError tail)) := by
  constructor
  · intro out; exact parse_ok_iff
  · intro tail os hm hne
    cases tail with
    | nil => exact absurd rfl hne
    | cons c t =>
      unfold parse_secrets
      rw [hm]

/-- Witness for C2: on "FOO = bar baz" the grammar parses the entry
FOO=bar and stops, and parse reports the remainder " baz". -/
theorem parse_all_or_nothing_witness :
    parse_secrets ("FOO = bar baz".data) = .error (WithError.ParseError (" baz".data)) :=
  (parse_all_or_nothing ("FOO = bar baz".data)).2 (" baz".data)
    [("FOO".data, "bar".data)] (by rfl) (by decide)

/-- C3 counterexample: the input consisting of a Latin small letter e with
acute, an equals sign and the digit one is accepted, and its returned key
contains that accented letter, which is neither an ASCII alphanumeric
character nor an underscore — so keys are not drawn from ASCII
alphanumerics and underscores only. -/
theorem key_not_ascii_counterexample :
    parse_secrets ("é=1".data) = .ok [(['é'], ['1'])] ∧
    'é' ∈ (['é'] : List Char) ∧ ('é'.isAlphanum || 'é' == '_') = false :=
  ⟨by rfl, by decide, by decide⟩

/-- C3 (amended): each parsed key is the longest run, at its position, of
characters that are Unicode alphanumeric in Rust's sense (char::
is_alphanumeric, the Alphabetic-or-numeric table) or underscores; no
character outside that class ever appears in a returned key. The run's
position is pinned to the entry's own parse: the entry comes from a
successful one_secret run whose whitespace skip and optional export
marker (both total functions of the entry start) reach the key position
j, the key is takeWhile keyPred of j, and the character immediately after
the key at that position, if any, fails keyPred — the run is maximal. -/
theorem keys_unicode_alphanumeric :
    ∀ (input : List Char) (out : List Entry), parse_secrets input = .ok out →
      ∀ kv ∈ out, ∃ (a b a1 j w : List Char) (e : Option Unit),
        one_secret a = .ok (b, kv) ∧
        take_whileP rustIsWhitespace a = .ok (a1, w) ∧
        optP export_clause a1 = .ok (j, e) ∧
        kv.1 = j.takeWhile keyPred ∧
        (∀ c, (j.dropWhile keyPred).head? = some c → keyPred c = false) ∧
        (∀ c ∈ kv.1, keyPred c = true) := by
  intro input out h kv hkv
  obtain ⟨a, b, hab⟩ := many1P_entries (parse_ok_iff.mp h) kv hkv
  obtain ⟨a1, j, j3, j4, raw, w, e, h1, h2, hkey, -, -, -⟩ := one_secret_inv hab
  exact ⟨a, b, a1, j, w, e, hab, h1, h2, hkey,
    fun c hc => head_dropWhile_not keyPred j hc, one_secret_key_chars hab⟩

/-- Witness for C3: the entry (FOO, bar) of the accepted input "FOO=bar"
comes from a one_secret run whose key position is the whole input, where
FOO is the maximal keyPred run and all its characters satisfy keyPred. -/
theorem keys_unicode_alphanumeric_witness :
    ∃ (a b a1 j w : List Char) (e : Option Unit),
      one_secret a = .ok (b, (("FOO".data : List Char), ("bar".data : List Char))) ∧
      take_whileP rustIsWhitespace a = .ok (a1, w) ∧
      optP export_clause a1 = .ok (j, e) ∧
      ("FOO".data : List Char) = j.takeWhile keyPred ∧
      (∀ c, (j.dropWhile keyPred).head? = some c → keyPred c = false) ∧
      (∀ c ∈ ("FOO".data : List Char), keyPred c = true) :=
  keys_unicode_alphanumeric ("FOO=bar".data) [("FOO".data, "bar".data)] (by rfl)
    ("FOO".data, "bar".data) (by decide)

/-- C4: every emitted value equals the raw extracted value transformed by
the three global replacements in this fixed order — backslash-doublequote
to doublequote, then backslash-singlequote to singlequote, then
backslash-backslash to backslash — and a raw value without backslashes is
emitted unchanged. -/
theorem values_unescaped_in_fixed_order :
    (∀ (input i1 : List Char) (kv : Entry), one_secret input = .ok (i1, kv) →
      ∃ (jv rest raw : List Char), maybe_quoted_value jv = .ok (rest, raw) ∧
        kv.2 = replace2 '\\' '\\' '\\' (replace2 '\\' '\'' '\'' (replace2 '\\' '"' '"' raw))) ∧
    (∀ raw : List Char, '\\' ∉ raw →
      replace2 '\\' '\\' '\\' (replace2 '\\' '\'' '\'' (replace2 '\\' '"' '"' raw)) = raw) := by
  constructor
  · intro input i1 kv h
    obtain ⟨-, jv, rest, raw, -, hmv, hv⟩ := one_secret_shape h
    exact ⟨jv, rest, raw, hmv, hv⟩
  · intro raw h
    exact unescapeValue_of_no_backslash h

/-- Witness for C4: the entry parsed from FOO equals quoted b-escaped-quote-ar
has its value produced by the replacement chain from a raw value, and the
backslash-free raw value bar is left unchanged by the chain. -/
theorem values_unescaped_in_fixed_order_witness :
    (∃ (jv rest raw : List Char), maybe_quoted_value jv = .ok (rest, raw) ∧
      ("b\"ar".data : List Char) =
        replace2 '\\' '\\' '\\' (replace2 '\\' '\'' '\'' (replace2 '\\' '"' '"' raw))) ∧
    replace2 '\\' '\\' '\\' (replace2 '\\' '\'' '\'' (replace2 '\\' '"' '"' ("bar".data))) =
      "bar".data :=
  ⟨values_unescaped_in_fixed_order.1 ("FOO=\"b\\\"ar\"".data) []
      ("FOO".data, "b\"ar".data) (by rfl),
   values_unescaped_in_fixed_order.2 ("bar".data) (by decide)⟩

/-- C5: entries come out in the order their text occurs in the input — the
output of a successful parse is a left-to-right chain of one_secret runs —
and the two multi-entry examples return their pairs in input order. -/
theorem entries_in_input_order :
    (∀ (input : List Char) (out : List Entry), parse_secrets input = .ok out →
      ManyChain one_secret input [] out) ∧
    parse_secrets ("FOO = bar\nBAZ = quux".data) =
      .ok [("FOO".data, "bar".data), ("BAZ".data, "quux".data)] ∧
    parse_secrets ("export FOO = \"bar\"\nexport BAZ = \"quux\"".data) =
      .ok [("FOO".data, "bar".data), ("BAZ".data, "quux".data)] := by
  refine ⟨?_, by rfl, by rfl⟩
  intro input out h
  exact many1P_chain (parse_ok_iff.mp h)

/-- Witness for C5: the single-entry input "FOO=bar" parses as a chain. -/
theorem entries_in_input_order_witness :
    ManyChain one_secret ("FOO=bar".data) [] [("FOO".data, "bar".data)] :=
  entries_in_input_order.1 ("FOO=bar".data) [("FOO".data, "bar".data)] (by rfl)

/-- C6: parse of export FOO equals quoted bar followed by one newline
returns the single entry (FOO, bar) with the newline fully consumed — a
success, not a trailing-input error. -/
theorem trailing_newline_consumed :
    parse_secrets ("export FOO = \"bar\"\n".data) = .ok [("FOO".data, "bar".data)] := by rfl

/-- C7: an unterminated double quote aborts the whole parse: on export FOO
equals quote bar with the quote never closed, parse returns an error (and
hence no partial result). -/
theorem unterminated_quote_fails :
    exceptIsError (parse_secrets ("export FOO = \"bar".data)) = true := by rfl

/-- C8: no key of an accepted input contains a space, a single or double
quote, or an equals sign. -/
theorem keys_free_of_delimiters :
    ∀ (input : List Char) (out : List Entry), parse_secrets input = .ok out →
      ∀ kv ∈ out, ' ' ∉ kv.1 ∧ '\'' ∉ kv.1 ∧ '"' ∉ kv.1 ∧ '=' ∉ kv.1 := by
  intro input out h kv hkv
  obtain ⟨a, b, hab⟩ := many1P_entries (parse_ok_iff.mp h) kv hkv
  have hchars := one_secret_key_chars hab
  exact ⟨fun hm => absurd (hchars _ hm) (by decide),
    fun hm => absurd (hchars _ hm) (by decide),
    fun hm => absurd (hchars _ hm) (by decide),
    fun hm => absurd (hchars _ hm) (by decide)⟩

/-- Witness for C8: the key FOO of the accepted input "FOO=bar" contains
none of space, quote characters, or the equals sign. -/
theorem keys_free_of_delimiters_witness :
    ' ' ∉ ("FOO".data : List Char) ∧ '\'' ∉ ("FOO".data : List Char) ∧
      '"' ∉ ("FOO".data : List Char) ∧ '=' ∉ ("FOO".data : List Char) :=
  keys_free_of_delimiters ("FOO=bar".data) [("FOO".data, "bar".data)] (by rfl)
    ("FOO".data, "bar".data) (by decide)

/-- C9: a bare equals-value with no key characters is accepted as a valid
entry with an empty key: parse of "=bar" yields the single entry with
empty key and value bar. -/
theorem empty_key_accepted :
    parse_secrets ("=bar".data) = .ok [([], "bar".data)] := by rfl

/-- C10: an unquoted value runs to the first quote, space, CR or LF and so
may contain an equals sign or a tab: FOO=a=b parses as the single entry
(FOO, a=b), and FOO=a-tab-b as (FOO, a-tab-b). -/
theorem unquoted_value_may_contain_equals :
    parse_secrets ("FOO=a=b".data) = .ok [("FOO".data, "a=b".data)] ∧
    parse_secrets ("FOO=a\tb".data) = .ok [("FOO".data, "a\tb".data)] :=
  ⟨by rfl, by rfl⟩
